import Mathlib

/-!
Verification development for the iota-sdk repository slice: the wallet
address ledger (src/src/address.rs), the python binding DTO conversions
(src/bindings/python/native/src/client/types.rs), and the payload codec
(specified in the design document; exercised by src/sdk/tests/types/payload.rs).

Machine integers are modelled as Nat with explicit bounds where overflow or
width matters; fallible Rust functions return Except; a Rust panic/abort is a
distinct outcome of a dedicated result type where a claim depends on it.
-/

namespace IotaSdk

/-- A byte is modelled as a Nat; validity predicates bound it below 256. -/
abbrev Byte := Nat

namespace Wallet

/-- `AddressOutput` from src/src/address.rs (fields: transaction_id,
message_id, index, amount, is_spent). Identifiers are 32-byte values,
modelled as byte lists. -/
structure AddressOutput where
  transaction_id : List Byte
  message_id : List Byte
  index : Nat
  amount : Nat
  is_spent : Bool
deriving DecidableEq, Repr

/-- The Ed25519 variant of `IotaAddress`, wrapping a 32-byte hash. -/
structure IotaAddress where
  ed25519 : List Byte
deriving DecidableEq, Repr

/-- The wallet `Address` struct from src/src/address.rs. -/
structure Address where
  address : IotaAddress
  balance : Nat
  key_index : Nat
  internal : Bool
  outputs : List AddressOutput
deriving DecidableEq, Repr

/-- Wallet errors: the `anyhow` message errors and the named
`WalletError::InvalidAddressLength` used in src/src/address.rs. -/
inductive WalletError where
  | message (s : String)
  | invalidAddressLength
deriving DecidableEq, Repr

/-- `AddressBuilder` from src/src/address.rs: four Option fields plus the
`internal` flag, which `Default` initialises to false and for which no
setter exists. -/
structure AddressBuilder where
  address : Option IotaAddress
  balance : Option Nat
  key_index : Option Nat
  internal : Bool
  outputs : Option (List AddressOutput)
deriving DecidableEq, Repr

/-- `AddressBuilder::new()`: `Default::default()`. -/
def AddressBuilder.new : AddressBuilder :=
  { address := none, balance := none, key_index := none, internal := false, outputs := none }

/-- Setter `AddressBuilder::address`. -/
def AddressBuilder.withAddress (b : AddressBuilder) (a : IotaAddress) : AddressBuilder :=
  { b with address := some a }

/-- Setter `AddressBuilder::balance`. -/
def AddressBuilder.withBalance (b : AddressBuilder) (n : Nat) : AddressBuilder :=
  { b with balance := some n }

/-- Setter `AddressBuilder::key_index`. -/
def AddressBuilder.withKeyIndex (b : AddressBuilder) (k : Nat) : AddressBuilder :=
  { b with key_index := some k }

/-- Setter `AddressBuilder::outputs`. -/
def AddressBuilder.withOutputs (b : AddressBuilder) (o : List AddressOutput) : AddressBuilder :=
  { b with outputs := some o }

/-- `AddressBuilder::build`: each Option field is required and produces an
`anyhow` error when absent; `internal` is copied from the builder. -/
def AddressBuilder.build (b : AddressBuilder) : Except WalletError Address :=
  match b.address with
  | none => .error (.message "the `address` field is required")
  | some iota_address =>
    match b.balance with
    | none => .error (.message "the `balance` field is required")
    | some balance =>
      match b.key_index with
      | none => .error (.message "the `key_index` field is required")
      | some key_index =>
        match b.outputs with
        | none => .error (.message "the `outputs` field is required")
        | some outputs =>
          .ok { address := iota_address, balance := balance, key_index := key_index,
                internal := b.internal, outputs := outputs }

/-- The four public setters of `AddressBuilder` (there is none for
`internal`), as reified operations. -/
inductive SetterOp where
  | setAddress (a : IotaAddress)
  | setBalance (n : Nat)
  | setKeyIndex (k : Nat)
  | setOutputs (o : List AddressOutput)
deriving DecidableEq, Repr

/-- Apply one setter to a builder. -/
def applyOp (b : AddressBuilder) : SetterOp → AddressBuilder
  | .setAddress a => b.withAddress a
  | .setBalance n => b.withBalance n
  | .setKeyIndex k => b.withKeyIndex k
  | .setOutputs o => b.withOutputs o

/-- The builder obtained from `AddressBuilder::new()` followed by a sequence
of setter calls. -/
def applyOps (ops : List SetterOp) : AddressBuilder :=
  ops.foldl applyOp AddressBuilder.new

/-- Does the op set the `address` field. -/
def setsAddress : SetterOp → Bool
  | .setAddress _ => true
  | _ => false

/-- Does the op set the `balance` field. -/
def setsBalance : SetterOp → Bool
  | .setBalance _ => true
  | _ => false

/-- Does the op set the `key_index` field. -/
def setsKeyIndex : SetterOp → Bool
  | .setKeyIndex _ => true
  | _ => false

/-- Does the op set the `outputs` field. -/
def setsOutputs : SetterOp → Bool
  | .setOutputs _ => true
  | _ => false

/-- Comparison of wallet addresses, from `impl Ord for Address` in
src/src/address.rs: compares the bech32 strings of the inner addresses.
The bech32 formatter lives outside src/ and is taken as a parameter. -/
def addressCmp (toBech32 : IotaAddress → String) (a b : Address) : Ordering :=
  compare (toBech32 a.address) (toBech32 b.address)

/-- Equality of wallet addresses, from `impl PartialEq for Address`:
the bech32 strings of the inner addresses are compared. -/
def addressEq (toBech32 : IotaAddress → String) (a b : Address) : Bool :=
  toBech32 a.address == toBech32 b.address

/-- Hashing of wallet addresses, from `impl Hash for Address`: the bech32
string of the inner address is fed to the hasher, modelled as a function
out of String. -/
def addressHash (toBech32 : IotaAddress → String) (hasher : String → UInt64) (a : Address) : UInt64 :=
  hasher (toBech32 a.address)

/-- The stronghold vault handle: `address_get(account_id, account_index,
address_index, internal)` returns a bech32 string or fails. Its
implementation is external to src/ (spec section 4.5 gives the contract). -/
structure Stronghold where
  address_get : List Byte → Nat → Nat → Bool → Except WalletError String

/-- `get_iota_address` from src/src/address.rs: obtains the stronghold for
the storage path, asks it for the address string, base32-decodes it, drops
the first byte and requires exactly 32 remaining bytes
(`WalletError::InvalidAddressLength` otherwise). The bech32 decoding step
is external to src/ and is a parameter. (Rust would abort on a slice of an
empty vector; the model maps that case to the length error — no claim below
depends on it.) -/
def get_iota_address (stronghold_from_path : String → Stronghold)
    (from_base32 : String → Except WalletError (List Byte))
    (storage_path : String) (account_id : List Byte)
    (account_index address_index : Nat) (internal : Bool) :
    Except WalletError IotaAddress := do
  let stronghold := stronghold_from_path storage_path
  let address_str ← stronghold.address_get account_id account_index address_index internal
  let address_ed25519 ← from_base32 address_str
  let tail := address_ed25519.drop 1
  if tail.length = 32 then
    .ok ⟨tail⟩
  else
    .error .invalidAddressLength

/-- Message types of the wallet; src/src/address.rs uses
`MessageType::Sent`. Modelled from the spec: the full enum is not under
src/. -/
inductive MessageType where
  | sent
  | received
deriving DecidableEq, Repr

/-- Modelled from the spec: a wallet message, as seen by
`is_unspent` — it carries its type and the addresses it involves
(`message.addresses()`), which for a sent message are the source addresses
of the transfer (spec section 4.6). The Message type is not under src/. -/
structure Message where
  messageType : MessageType
  addresses : List IotaAddress

/-- Modelled from the spec: the wallet account record (spec sections 3 and
4.6) with the fields src/src/address.rs reads: id, index, storage_path,
the derived addresses, and the local message history. The Account type is
not under src/. -/
structure Account where
  id : List Byte
  index : Nat
  storage_path : String
  addresses : List Address
  messages : List Message

/-- Modelled from the spec: `Account::list_messages(count, from, type)` —
src/src/address.rs calls it as `list_messages(0, 0, Some(Sent))`; with both
pagination arguments zero it returns every message of the given type. The
implementation is not under src/. -/
def Account.list_messages (acct : Account) (_count _from : Nat)
    (filter : Option MessageType) : List Message :=
  match filter with
  | some t => acct.messages.filter (fun m => m.messageType == t)
  | none => acct.messages

/-- `is_unspent` from src/src/address.rs: the address is unspent unless it
occurs in the address list of some already-sent message of the account. -/
def is_unspent (account : Account) (address : IotaAddress) : Bool :=
  !((account.list_messages 0 0 (some .sent)).any (fun m => m.addresses.contains address))

/-- Modelled from the spec (section 6): the node collaborator answers
balance/outputs queries keyed by address. The code under src/ consumes only
the balance field; the outputs field records what the ledger knows at that
address. -/
structure AddressQueryResponse where
  balance : Nat
  outputs : List AddressOutput
deriving Repr

/-- The external balance/outputs collaborator: one network query. -/
abbrev Collaborator := IotaAddress → Except WalletError AddressQueryResponse

/-- `get_balance` from src/src/address.rs: queries the node for the address
and returns the balance amount. -/
def get_balance (collab : Collaborator) (address : IotaAddress) : Except WalletError Nat := do
  let resp ← collab address
  .ok resp.balance

/-- `get_new_address` from src/src/address.rs: key_index is the current
number of addresses of the account, the address is derived through
`get_iota_address`, the balance is queried, and the returned Address has
an empty outputs list. The account is taken by shared reference and is not
modified. -/
def get_new_address (collab : Collaborator)
    (stronghold_from_path : String → Stronghold)
    (from_base32 : String → Except WalletError (List Byte))
    (account : Account) (internal : Bool) : Except WalletError Address := do
  let key_index := account.addresses.length
  let iota_address ← get_iota_address stronghold_from_path from_base32
    account.storage_path account.id account.index key_index internal
  let balance ← get_balance collab iota_address
  .ok { address := iota_address, balance := balance, key_index := key_index,
        internal := internal, outputs := [] }

/-- The loop body of `get_addresses`: iteration i of the remaining n
iterations awaits `get_new_address` on the unchanged account and conses the
result. Each iteration is a separate network round trip, so the collaborator
outcome is indexed by the iteration number (the async call of iteration i
may succeed or fail independently). -/
def get_addresses_from (collabs : Nat → Collaborator)
    (stronghold_from_path : String → Stronghold)
    (from_base32 : String → Except WalletError (List Byte))
    (account : Account) (internal : Bool) : Nat → Nat → Except WalletError (List Address)
  | _, 0 => .ok []
  | i, n + 1 => do
    let a ← get_new_address (collabs i) stronghold_from_path from_base32 account internal
    let rest ← get_addresses_from collabs stronghold_from_path from_base32 account internal (i + 1) n
    .ok (a :: rest)

/-- `get_addresses` from src/src/address.rs: a for loop over 0..count that
pushes `get_new_address(&account, internal).await?` — the `?` propagates the
first error out of the whole function, and the account reference is never
updated inside the loop. -/
def get_addresses (collabs : Nat → Collaborator)
    (stronghold_from_path : String → Stronghold)
    (from_base32 : String → Except WalletError (List Byte))
    (account : Account) (count : Nat) (internal : Bool) :
    Except WalletError (List Address) :=
  get_addresses_from collabs stronghold_from_path from_base32 account internal 0 count

/-- A concrete vault: every query answers the same address string. -/
def strongholdEx : String → Stronghold :=
  fun _ => ⟨fun _ _ _ _ => .ok "addr"⟩

/-- A concrete base32 decoder: 33 zero bytes for every input. -/
def fromBase32Ex : String → Except WalletError (List Byte) :=
  fun _ => .ok (List.replicate 33 0)

/-- A concrete account with no addresses and no messages. -/
def accountEx : Account :=
  { id := List.replicate 32 0, index := 0, storage_path := "path", addresses := [], messages := [] }

/-- A collaborator that always answers balance 0 and no outputs. -/
def collabZero : Nat → Collaborator :=
  fun _ _ => .ok ⟨0, []⟩

/-- The address that `get_new_address` produces on the concrete instances
above. -/
def addressDup : Address :=
  { address := ⟨List.replicate 32 0⟩, balance := 0, key_index := 0, internal := false,
    outputs := [] }

/-- A collaborator sequence whose first query succeeds with balance 5 and
whose later queries fail. -/
def collabFailLater : Nat → Collaborator :=
  fun i _ => if i = 0 then .ok ⟨5, []⟩ else .error (.message "balance query failed")

/-- A single discovered output, used to exercise the outputs field. -/
def outputEx : AddressOutput :=
  { transaction_id := List.replicate 32 1, message_id := List.replicate 32 2, index := 0,
    amount := 7, is_spent := false }

/-- A collaborator that reports balance 7 and one known output at every
address. -/
def collabWithOutputs : Collaborator :=
  fun _ => .ok ⟨7, [outputEx]⟩

end Wallet

namespace Codec

/-!
Modelled from the spec: the Protocol Codec (spec sections 3, 4.1 and 6).
The pack/unpack implementation itself is not under src/ — only its test file
src/sdk/tests/types/payload.rs is — so the byte layout is taken from the
spec: every payload begins with its one-byte kind tag
(4=TreasuryTransaction, 5=TaggedData, 6=Transaction, 7=Milestone), followed
by the fields of the variant in the fixed order of spec section 3;
fixed-size fields occupy exactly their declared width; sequences carry an
explicit count; multi-byte integers are little-endian of their declared
width.
-/

/-- Little-endian encoding of a natural number on k bytes. -/
def encNat : Nat → Nat → List Byte
  | 0, _ => []
  | k + 1, n => n % 256 :: encNat k (n / 256)

/-- Read a k-byte little-endian natural number; fails on a short buffer. -/
def parseNat : Nat → List Byte → Option (Nat × List Byte)
  | 0, bs => some (0, bs)
  | _ + 1, [] => none
  | k + 1, b :: bs =>
    match parseNat k bs with
    | some (m, r) => some (b + 256 * m, r)
    | none => none

/-- Read exactly k raw bytes; fails on a short buffer. -/
def parseFix : Nat → List Byte → Option (List Byte × List Byte)
  | 0, bs => some ([], bs)
  | _ + 1, [] => none
  | k + 1, b :: bs =>
    match parseFix k bs with
    | some (xs, r) => some (b :: xs, r)
    | none => none

/-- Concatenate the encodings of a sequence of items. -/
def encSeq (enc : α → List Byte) : List α → List Byte
  | [] => []
  | x :: xs => enc x ++ encSeq enc xs

/-- Read exactly n items with the given item decoder. -/
def parseCount (p : List Byte → Option (α × List Byte)) :
    Nat → List Byte → Option (List α × List Byte)
  | 0, bs => some ([], bs)
  | k + 1, bs =>
    match p bs with
    | some (x, r) =>
      match parseCount p k r with
      | some (xs, r2) => some (x :: xs, r2)
      | none => none
    | none => none

/-- Modelled from the spec: protocol parameters carry the expected network
id and the fixed maximum token supply (spec sections 4.1 and 4.2). -/
structure ProtocolParameters where
  network_id : Nat
  token_supply : Nat
deriving DecidableEq, Repr

/-- Modelled from the spec: TaggedData payload — a tag and a data blob
(spec section 3; the tag carries a one-byte count, the data a four-byte
count). -/
structure TaggedDataPayload where
  tag : List Byte
  data : List Byte
deriving DecidableEq, Repr

/-- Modelled from the spec: a UTXO input names a transaction id (32 bytes)
and an output index (u16). -/
structure UtxoInput where
  transaction_id : List Byte
  output_index : Nat
deriving DecidableEq, Repr

/-- Modelled from the spec: Input variant {Utxo, Treasury{milestone_id}}. -/
inductive Input where
  | utxo (i : UtxoInput)
  | treasury (milestone_id : List Byte)
deriving DecidableEq, Repr

/-- Modelled from the spec: a Basic output carries an amount (u64) and the
owning 32-byte address. -/
structure BasicOutput where
  amount : Nat
  address : List Byte
deriving DecidableEq, Repr

/-- Modelled from the spec: Output variant {Basic, Treasury{amount}}. -/
inductive Output where
  | basic (o : BasicOutput)
  | treasury (amount : Nat)
deriving DecidableEq, Repr

/-- Modelled from the spec: TransactionEssence — network id (u64), 32-byte
inputs commitment, non-empty input and output sequences, and at most one
embedded non-signature payload (modelled as an optional TaggedData). -/
structure TransactionEssence where
  network_id : Nat
  inputs_commitment : List Byte
  inputs : List Input
  outputs : List Output
  payload : Option TaggedDataPayload
deriving DecidableEq, Repr

/-- Modelled from the spec: Unlock variant {Signature{32-byte public key,
64-byte signature}, Reference{u16 index}}. -/
inductive Unlock where
  | signature (public_key : List Byte) (sig : List Byte)
  | reference (index : Nat)
deriving DecidableEq, Repr

/-- Modelled from the spec: a Transaction payload is an essence plus the
unlocks (one per input). -/
structure TransactionPayload where
  essence : TransactionEssence
  unlocks : List Unlock
deriving DecidableEq, Repr

/-- Modelled from the spec: a milestone signature entry — 32-byte public
key and 64-byte signature. -/
structure MilestoneSignature where
  public_key : List Byte
  sig : List Byte
deriving DecidableEq, Repr

/-- Modelled from the spec: MilestoneEssence with index (u32), timestamp
(u64), protocol version (u8), previous milestone id, non-empty unique
parents, the two 32-byte merkle roots, and an opaque options blob. -/
structure MilestoneEssence where
  index : Nat
  timestamp : Nat
  protocol_version : Nat
  previous_milestone_id : List Byte
  parents : List (List Byte)
  inclusion_merkle_root : List Byte
  applied_merkle_root : List Byte
  options : List Byte
deriving DecidableEq, Repr

/-- Modelled from the spec: MilestonePayload = essence plus an ordered list
of signatures. -/
structure MilestonePayload where
  essence : MilestoneEssence
  signatures : List MilestoneSignature
deriving DecidableEq, Repr

/-- Modelled from the spec: a TreasuryTransaction payload consumes a
treasury input (a milestone id) and produces a treasury output (an
amount). -/
structure TreasuryTransactionPayload where
  input_milestone_id : List Byte
  output_amount : Nat
deriving DecidableEq, Repr

/-- Modelled from the spec: the Payload tagged variant (spec section 3). -/
inductive Payload where
  | treasuryTransaction (p : TreasuryTransactionPayload)
  | taggedData (p : TaggedDataPayload)
  | transaction (p : TransactionPayload)
  | milestone (p : MilestonePayload)
deriving DecidableEq, Repr

/-- The one-byte kind tag of a payload (spec sections 3 and 6):
4=TreasuryTransaction, 5=TaggedData, 6=Transaction, 7=Milestone. -/
def Payload.kind : Payload → Byte
  | .treasuryTransaction _ => 4
  | .taggedData _ => 5
  | .transaction _ => 6
  | .milestone _ => 7

/-! Packing. -/

/-- Pack a TaggedData payload body: one-byte tag count, tag bytes,
four-byte data count, data bytes. -/
def packTagged (p : TaggedDataPayload) : List Byte :=
  encNat 1 p.tag.length ++ p.tag ++ encNat 4 p.data.length ++ p.data

/-- Pack an input: kind byte 0 for Utxo (32-byte transaction id plus u16
index), kind byte 1 for Treasury (32-byte milestone id). -/
def packInput : Input → List Byte
  | .utxo i => 0 :: (i.transaction_id ++ encNat 2 i.output_index)
  | .treasury m => 1 :: m

/-- Pack an output: kind byte 2 for Treasury (u64 amount), kind byte 3 for
Basic (u64 amount plus 32-byte address). -/
def packOutput : Output → List Byte
  | .basic o => 3 :: (encNat 8 o.amount ++ o.address)
  | .treasury amount => 2 :: encNat 8 amount

/-- Pack an optional embedded TaggedData payload: presence byte then the
body. -/
def packOptTagged : Option TaggedDataPayload → List Byte
  | none => [0]
  | some p => 1 :: packTagged p

/-- Pack a transaction essence: u64 network id, 32-byte inputs commitment,
u16-counted inputs, u16-counted outputs, optional embedded payload. -/
def packEssence (e : TransactionEssence) : List Byte :=
  encNat 8 e.network_id ++ e.inputs_commitment ++
    encNat 2 e.inputs.length ++ encSeq packInput e.inputs ++
    encNat 2 e.outputs.length ++ encSeq packOutput e.outputs ++
    packOptTagged e.payload

/-- Pack an unlock: kind byte 0 for Signature (32-byte key, 64-byte
signature), kind byte 1 for Reference (u16 index). -/
def packUnlock : Unlock → List Byte
  | .signature pk sig => 0 :: (pk ++ sig)
  | .reference idx => 1 :: encNat 2 idx

/-- Pack a transaction payload body: essence then u16-counted unlocks. -/
def packTransaction (p : TransactionPayload) : List Byte :=
  packEssence p.essence ++ encNat 2 p.unlocks.length ++ encSeq packUnlock p.unlocks

/-- Pack one milestone signature entry: 32-byte key then 64-byte
signature. -/
def packMilestoneSig (s : MilestoneSignature) : List Byte :=
  s.public_key ++ s.sig

/-- Pack a milestone essence: u32 index, u64 timestamp, u8 protocol
version, 32-byte previous milestone id, one-byte-counted 32-byte parents,
the two 32-byte merkle roots, four-byte-counted options blob. -/
def packMilestoneEssence (e : MilestoneEssence) : List Byte :=
  encNat 4 e.index ++ encNat 8 e.timestamp ++ encNat 1 e.protocol_version ++
    e.previous_milestone_id ++
    encNat 1 e.parents.length ++ encSeq id e.parents ++
    e.inclusion_merkle_root ++ e.applied_merkle_root ++
    encNat 4 e.options.length ++ e.options

/-- Pack a milestone payload body: essence then one-byte-counted
signatures. -/
def packMilestone (p : MilestonePayload) : List Byte :=
  packMilestoneEssence p.essence ++
    encNat 1 p.signatures.length ++ encSeq packMilestoneSig p.signatures

/-- Pack a treasury transaction body: 32-byte input milestone id then u64
output amount. -/
def packTreasuryTransaction (p : TreasuryTransactionPayload) : List Byte :=
  p.input_milestone_id ++ encNat 8 p.output_amount

/-- `pack(payload)`: the one-byte kind tag followed by the fields of the
variant in fixed order (spec section 4.1). -/
def packPayload (p : Payload) : List Byte :=
  match p with
  | .treasuryTransaction q => p.kind :: packTreasuryTransaction q
  | .taggedData q => p.kind :: packTagged q
  | .transaction q => p.kind :: packTransaction q
  | .milestone q => p.kind :: packMilestone q

/-! Length prediction, `packed_len` (spec section 4.1). -/

/-- Predicted body length of a TaggedData payload. -/
def taggedPackedLen (p : TaggedDataPayload) : Nat :=
  1 + p.tag.length + 4 + p.data.length

/-- Predicted length of one input. -/
def inputPackedLen : Input → Nat
  | .utxo _ => 1 + 32 + 2
  | .treasury _ => 1 + 32

/-- Predicted length of one output. -/
def outputPackedLen : Output → Nat
  | .basic _ => 1 + 8 + 32
  | .treasury _ => 1 + 8

/-- Predicted length of the optional embedded payload. -/
def optTaggedPackedLen : Option TaggedDataPayload → Nat
  | none => 1
  | some p => 1 + taggedPackedLen p

/-- Predicted length of a transaction essence. -/
def essencePackedLen (e : TransactionEssence) : Nat :=
  8 + 32 + 2 + (e.inputs.map inputPackedLen).sum +
    2 + (e.outputs.map outputPackedLen).sum + optTaggedPackedLen e.payload

/-- Predicted length of one unlock. -/
def unlockPackedLen : Unlock → Nat
  | .signature _ _ => 1 + 32 + 64
  | .reference _ => 1 + 2

/-- Predicted body length of a transaction payload. -/
def transactionPackedLen (p : TransactionPayload) : Nat :=
  essencePackedLen p.essence + 2 + (p.unlocks.map unlockPackedLen).sum

/-- Predicted body length of a milestone essence. -/
def milestoneEssencePackedLen (e : MilestoneEssence) : Nat :=
  4 + 8 + 1 + 32 + 1 + 32 * e.parents.length + 32 + 32 + 4 + e.options.length

/-- Predicted body length of a milestone payload. -/
def milestonePackedLen (p : MilestonePayload) : Nat :=
  milestoneEssencePackedLen p.essence + 1 + 96 * p.signatures.length

/-- Predicted body length of a treasury transaction payload. -/
def treasuryTransactionPackedLen (_ : TreasuryTransactionPayload) : Nat :=
  32 + 8

/-- `packed_len(payload)`: pure length prediction — kind byte plus the
variant body (spec section 4.1). -/
def payloadPackedLen : Payload → Nat
  | .treasuryTransaction p => 1 + treasuryTransactionPackedLen p
  | .taggedData p => 1 + taggedPackedLen p
  | .transaction p => 1 + transactionPackedLen p
  | .milestone p => 1 + milestonePackedLen p

/-! Validity (spec sections 3, 4.1 and 4.2). -/

/-- A valid fixed-size field of k bytes: exact length and byte-valued
entries (spec: any other length is a decode failure). -/
def ValidBytes (k : Nat) (b : List Byte) : Prop :=
  b.length = k ∧ ∀ x ∈ b, x < 256

/-- A valid input: 32-byte identifier, u16 index. -/
def ValidInput : Input → Prop
  | .utxo i => ValidBytes 32 i.transaction_id ∧ i.output_index < 2 ^ 16
  | .treasury m => ValidBytes 32 m

/-- A valid output: u64 amount, nonzero for a basic output (spec section
4.2), 32-byte owning address. -/
def ValidOutput : Output → Prop
  | .basic o => 0 < o.amount ∧ o.amount < 2 ^ 64 ∧ ValidBytes 32 o.address
  | .treasury amount => amount < 2 ^ 64

/-- The amount of an output. -/
def outputAmount : Output → Nat
  | .basic o => o.amount
  | .treasury amount => amount

/-- A valid TaggedData payload: the tag fits its one-byte count, the data
its four-byte count, and both are byte-valued. -/
def ValidTagged (p : TaggedDataPayload) : Prop :=
  p.tag.length < 256 ∧ (∀ x ∈ p.tag, x < 256) ∧
    p.data.length < 2 ^ 32 ∧ ∀ x ∈ p.data, x < 256

/-- A valid optional embedded payload. -/
def ValidOptTagged : Option TaggedDataPayload → Prop
  | none => True
  | some p => ValidTagged p

/-- A valid transaction essence (spec section 4.2): network id matches the
protocol parameters and fits u64, the commitment is 32 bytes, inputs are
non-empty, duplicate-free, valid and fit the u16 count, outputs are
non-empty, valid, fit the u16 count and their total does not exceed the
token supply, and the embedded payload is valid. -/
def ValidEssence (params : ProtocolParameters) (e : TransactionEssence) : Prop :=
  e.network_id = params.network_id ∧ e.network_id < 2 ^ 64 ∧
    ValidBytes 32 e.inputs_commitment ∧
    e.inputs ≠ [] ∧ e.inputs.Nodup ∧ e.inputs.length < 2 ^ 16 ∧ (∀ i ∈ e.inputs, ValidInput i) ∧
    e.outputs ≠ [] ∧ e.outputs.length < 2 ^ 16 ∧ (∀ o ∈ e.outputs, ValidOutput o) ∧
    (e.outputs.map outputAmount).sum ≤ params.token_supply ∧
    ValidOptTagged e.payload

/-- A valid unlock: 32-byte key and 64-byte signature, or a u16 reference
index. -/
def ValidUnlock : Unlock → Prop
  | .signature pk sig => ValidBytes 32 pk ∧ ValidBytes 64 sig
  | .reference idx => idx < 2 ^ 16

/-- A valid transaction payload: valid essence, valid unlocks, and exactly
one unlock per input (spec section 3 invariants). -/
def ValidTransaction (params : ProtocolParameters) (p : TransactionPayload) : Prop :=
  ValidEssence params p.essence ∧ (∀ u ∈ p.unlocks, ValidUnlock u) ∧
    p.unlocks.length = p.essence.inputs.length

/-- A valid milestone essence: fields in their integer ranges, 32-byte
identifiers and roots, non-empty duplicate-free parents fitting the
one-byte count, and an options blob fitting its four-byte count. -/
def ValidMilestoneEssence (e : MilestoneEssence) : Prop :=
  e.index < 2 ^ 32 ∧ e.timestamp < 2 ^ 64 ∧ e.protocol_version < 256 ∧
    ValidBytes 32 e.previous_milestone_id ∧
    e.parents ≠ [] ∧ e.parents.Nodup ∧ e.parents.length < 256 ∧
    (∀ q ∈ e.parents, ValidBytes 32 q) ∧
    ValidBytes 32 e.inclusion_merkle_root ∧ ValidBytes 32 e.applied_merkle_root ∧
    e.options.length < 2 ^ 32 ∧ (∀ x ∈ e.options, x < 256)

/-- A valid milestone payload: valid essence and a non-empty signature list
of 32+64-byte entries fitting its one-byte count. -/
def ValidMilestone (p : MilestonePayload) : Prop :=
  ValidMilestoneEssence p.essence ∧ p.signatures ≠ [] ∧ p.signatures.length < 256 ∧
    ∀ s ∈ p.signatures, ValidBytes 32 s.public_key ∧ ValidBytes 64 s.sig

/-- A valid treasury transaction: 32-byte milestone id and an amount within
u64 and the token supply. -/
def ValidTreasuryTransaction (params : ProtocolParameters) (p : TreasuryTransactionPayload) : Prop :=
  ValidBytes 32 p.input_milestone_id ∧ p.output_amount < 2 ^ 64 ∧
    p.output_amount ≤ params.token_supply

/-- A valid payload (spec section 8: "for every valid Payload"). -/
def ValidPayload (params : ProtocolParameters) : Payload → Prop
  | .treasuryTransaction p => ValidTreasuryTransaction params p
  | .taggedData p => ValidTagged p
  | .transaction p => ValidTransaction params p
  | .milestone p => ValidMilestone p

instance : DecidablePred (ValidInput) := by
  intro i
  cases i <;> simp only [ValidInput, ValidBytes] <;> infer_instance

instance : DecidablePred (ValidOutput) := by
  intro o
  cases o <;> simp only [ValidOutput, ValidBytes] <;> infer_instance

instance : DecidablePred (ValidOptTagged) := by
  intro p
  cases p <;> simp only [ValidOptTagged, ValidTagged] <;> infer_instance

instance : DecidablePred (ValidUnlock) := by
  intro u
  cases u <;> simp only [ValidUnlock, ValidBytes] <;> infer_instance

instance (params : ProtocolParameters) : DecidablePred (ValidEssence params) := by
  intro e
  simp only [ValidEssence, ValidBytes]
  infer_instance

instance (params : ProtocolParameters) : DecidablePred (ValidTransaction params) := by
  intro p
  simp only [ValidTransaction]
  infer_instance

instance : DecidablePred (ValidMilestoneEssence) := by
  intro e
  simp only [ValidMilestoneEssence, ValidBytes]
  infer_instance

instance : DecidablePred (ValidMilestone) := by
  intro p
  simp only [ValidMilestone, ValidBytes]
  infer_instance

instance (params : ProtocolParameters) : DecidablePred (ValidPayload params) := by
  intro p
  cases p <;> simp only [ValidPayload, ValidTreasuryTransaction, ValidTagged, ValidBytes] <;>
    infer_instance

/-! Unpacking (spec section 4.1): read the kind tag, dispatch to the
matching variant decoder, fail on an unknown tag, a short buffer, or a
nested essence failing its own validation. -/

/-- Decode a TaggedData body. -/
def parseTagged (bs : List Byte) : Option (TaggedDataPayload × List Byte) :=
  match parseNat 1 bs with
  | none => none
  | some (tagLen, r1) =>
    match parseFix tagLen r1 with
    | none => none
    | some (tag, r2) =>
      match parseNat 4 r2 with
      | none => none
      | some (dataLen, r3) =>
        match parseFix dataLen r3 with
        | none => none
        | some (data, r4) => some (⟨tag, data⟩, r4)

/-- Decode one input. -/
def parseInput (bs : List Byte) : Option (Input × List Byte) :=
  match bs with
  | 0 :: r =>
    match parseFix 32 r with
    | none => none
    | some (txid, r1) =>
      match parseNat 2 r1 with
      | none => none
      | some (idx, r2) => some (.utxo ⟨txid, idx⟩, r2)
  | 1 :: r =>
    match parseFix 32 r with
    | none => none
    | some (m, r1) => some (.treasury m, r1)
  | _ => none

/-- Decode one output. -/
def parseOutput (bs : List Byte) : Option (Output × List Byte) :=
  match bs with
  | 3 :: r =>
    match parseNat 8 r with
    | none => none
    | some (amount, r1) =>
      match parseFix 32 r1 with
      | none => none
      | some (addr, r2) => some (.basic ⟨amount, addr⟩, r2)
  | 2 :: r =>
    match parseNat 8 r with
    | none => none
    | some (amount, r1) => some (.treasury amount, r1)
  | _ => none

/-- Decode the optional embedded payload. -/
def parseOptTagged (bs : List Byte) : Option (Option TaggedDataPayload × List Byte) :=
  match bs with
  | 0 :: r => some (none, r)
  | 1 :: r =>
    match parseTagged r with
    | none => none
    | some (p, r1) => some (some p, r1)
  | _ => none

/-- Decode a transaction essence and reject one that fails its own
validation against the protocol parameters (spec section 4.1). -/
def parseEssence (params : ProtocolParameters) (bs : List Byte) :
    Option (TransactionEssence × List Byte) :=
  match parseNat 8 bs with
  | none => none
  | some (network_id, r1) =>
    match parseFix 32 r1 with
    | none => none
    | some (commitment, r2) =>
      match parseNat 2 r2 with
      | none => none
      | some (nIn, r3) =>
        match parseCount parseInput nIn r3 with
        | none => none
        | some (inputs, r4) =>
          match parseNat 2 r4 with
          | none => none
          | some (nOut, r5) =>
            match parseCount parseOutput nOut r5 with
            | none => none
            | some (outputs, r6) =>
              match parseOptTagged r6 with
              | none => none
              | some (payload, r7) =>
                let e : TransactionEssence := ⟨network_id, commitment, inputs, outputs, payload⟩
                if ValidEssence params e then some (e, r7) else none

/-- Decode one unlock. -/
def parseUnlock (bs : List Byte) : Option (Unlock × List Byte) :=
  match bs with
  | 0 :: r =>
    match parseFix 32 r with
    | none => none
    | some (pk, r1) =>
      match parseFix 64 r1 with
      | none => none
      | some (sig, r2) => some (.signature pk sig, r2)
  | 1 :: r =>
    match parseNat 2 r with
    | none => none
    | some (idx, r1) => some (.reference idx, r1)
  | _ => none

/-- Decode a transaction payload body; enforces one unlock per input. -/
def parseTransaction (params : ProtocolParameters) (bs : List Byte) :
    Option (TransactionPayload × List Byte) :=
  match parseEssence params bs with
  | none => none
  | some (e, r1) =>
    match parseNat 2 r1 with
    | none => none
    | some (nUn, r2) =>
      match parseCount parseUnlock nUn r2 with
      | none => none
      | some (unlocks, r3) =>
        if unlocks.length = e.inputs.length then some (⟨e, unlocks⟩, r3) else none

/-- Decode one milestone signature entry. -/
def parseMilestoneSig (bs : List Byte) : Option (MilestoneSignature × List Byte) :=
  match parseFix 32 bs with
  | none => none
  | some (pk, r1) =>
    match parseFix 64 r1 with
    | none => none
    | some (sig, r2) => some (⟨pk, sig⟩, r2)

/-- Decode a milestone essence. -/
def parseMilestoneEssence (bs : List Byte) : Option (MilestoneEssence × List Byte) :=
  match parseNat 4 bs with
  | none => none
  | some (index, r1) =>
    match parseNat 8 r1 with
    | none => none
    | some (timestamp, r2) =>
      match parseNat 1 r2 with
      | none => none
      | some (version, r3) =>
        match parseFix 32 r3 with
        | none => none
        | some (prev, r4) =>
          match parseNat 1 r4 with
          | none => none
          | some (nPar, r5) =>
            match parseCount (parseFix 32) nPar r5 with
            | none => none
            | some (parents, r6) =>
              match parseFix 32 r6 with
              | none => none
              | some (incl, r7) =>
                match parseFix 32 r7 with
                | none => none
                | some (appl, r8) =>
                  match parseNat 4 r8 with
                  | none => none
                  | some (optLen, r9) =>
                    match parseFix optLen r9 with
                    | none => none
                    | some (options, r10) =>
                      some (⟨index, timestamp, version, prev, parents, incl, appl, options⟩, r10)

/-- Decode a milestone payload body. -/
def parseMilestone (bs : List Byte) : Option (MilestonePayload × List Byte) :=
  match parseMilestoneEssence bs with
  | none => none
  | some (e, r1) =>
    match parseNat 1 r1 with
    | none => none
    | some (nSig, r2) =>
      match parseCount parseMilestoneSig nSig r2 with
      | none => none
      | some (sigs, r3) => some (⟨e, sigs⟩, r3)

/-- Decode a treasury transaction body. -/
def parseTreasuryTransaction (bs : List Byte) : Option (TreasuryTransactionPayload × List Byte) :=
  match parseFix 32 bs with
  | none => none
  | some (m, r1) =>
    match parseNat 8 r1 with
    | none => none
    | some (amount, r2) => some (⟨m, amount⟩, r2)

/-- `unpack(bytes, protocol_parameters)`: reads the kind tag and dispatches
to the matching variant decoder; an unrecognised tag, a short buffer or a
failing nested validation yields none (spec section 4.1). -/
def unpackPayload (params : ProtocolParameters) (bs : List Byte) :
    Option (Payload × List Byte) :=
  match bs with
  | 4 :: r =>
    match parseTreasuryTransaction r with
    | none => none
    | some (p, r1) => some (.treasuryTransaction p, r1)
  | 5 :: r =>
    match parseTagged r with
    | none => none
    | some (p, r1) => some (.taggedData p, r1)
  | 6 :: r =>
    match parseTransaction params r with
    | none => none
    | some (p, r1) => some (.transaction p, r1)
  | 7 :: r =>
    match parseMilestone r with
    | none => none
    | some (p, r1) => some (.milestone p, r1)
  | _ => none

end Codec

namespace Binding

/-!
The python binding DTO-to-domain conversions from
src/bindings/python/native/src/client/types.rs. A Rust `panic!`,
`unwrap`, `expect` or `unreachable!` aborts the process; the model records
that as the distinct outcome `ConvOutcome.panic`, while a `?` return of a
typed error is `ConvOutcome.typedError`.
-/

/-- Outcome of a fallible binding conversion: success, an ordinary typed
error return, or a process abort (panic). -/
inductive ConvOutcome (α : Type) where
  | ok (a : α)
  | typedError (e : String)
  | panic
deriving DecidableEq, Repr

/-- DTO `Input` from types.rs: a transaction id string and a u16 index. -/
structure InputDto where
  transaction_id : String
  index : Nat
deriving DecidableEq, Repr

/-- DTO `Output` from types.rs: a bech32/hex address string and a u64
amount. -/
structure OutputDto where
  address : String
  amount : Nat
deriving DecidableEq, Repr

/-- DTO `Indexation` from types.rs: an index string and a data blob. -/
structure IndexationDto where
  index : String
  data : List Byte
deriving DecidableEq, Repr

/-- DTO `Payload` from types.rs, the part read by the essence conversion:
the optional indexation list (the transaction/milestone alternatives are
not consulted on this path). -/
structure PayloadDto where
  indexation : Option (List IndexationDto)
deriving DecidableEq, Repr

/-- DTO `TransactionPayloadEssence` from types.rs. -/
structure TransactionPayloadEssenceDto where
  inputs : List InputDto
  outputs : List OutputDto
  payload : Option PayloadDto
deriving DecidableEq, Repr

/-- DTO `Ed25519Signature` from types.rs: a 32-entry public key field and
a signature blob. -/
structure Ed25519SignatureDto where
  public_key : List Byte
  signature : List Byte
deriving DecidableEq, Repr

/-- DTO `UnlockBlock` from types.rs: optional signature, optional
reference. -/
structure UnlockBlockDto where
  signature : Option Ed25519SignatureDto
  reference : Option Nat
deriving DecidableEq, Repr

/-- The domain transaction essence produced by the conversion, with the
fields the conversion actually constructs. -/
structure RustEssence where
  inputs : List (String × Nat)
  outputs : List (String × Nat)
  payload : Option (String × List Byte)
deriving DecidableEq, Repr

/-- The domain unlock block produced by the conversion. -/
inductive RustUnlockBlock where
  | signature (public_key : List Byte) (sig : List Byte)
  | reference (index : Nat)
deriving DecidableEq, Repr

/-- Is the character a hexadecimal digit. -/
def isHexChar (c : Char) : Bool :=
  c.isDigit || (Char.ofNat 97 ≤ c && c ≤ Char.ofNat 102) ||
    (Char.ofNat 65 ≤ c && c ≤ Char.ofNat 70)

/-- Modelled from the spec: identifiers are fixed 32-byte content hashes
(spec section 3), so `TransactionId::from_str` and
`Ed25519Address::from_str` (from the iota crate, not under src/) accept
exactly a 64-character hexadecimal string. -/
def validHex64 (s : String) : Bool :=
  s.length == 64 && s.toList.all isHexChar

/-- `hex::decode_to_slice(input, out)` (hex crate, not under src/): fails
with a typed error unless the input is exactly twice the output width and
all hexadecimal; used by the Ed25519Signature conversion with a 32-byte
output slice. -/
def hexDecodeOk64 (input : List Byte) : Bool :=
  input.length == 64 && input.all (fun b => isHexChar (Char.ofNat b))

/-- Modelled from the spec (section 4.2): the essence builder `finish`
rejects empty inputs, empty outputs and duplicate inputs with a typed
error; the conversion forwards that error with `?`. -/
def finishEssence (inputs : List (String × Nat)) (outputs : List (String × Nat))
    (payload : Option (String × List Byte)) : ConvOutcome RustEssence :=
  if inputs = [] then .typedError "empty inputs"
  else if outputs = [] then .typedError "empty outputs"
  else if ¬ inputs.Nodup then .typedError "duplicate input"
  else if outputs = [] then .typedError "empty outputs"
  else .ok ⟨inputs, outputs, payload⟩

/-- `TryFrom<TransactionPayloadEssence> for RustTransactionPayloadEssence`
(types.rs lines 564-639): every input id is parsed with
`from_str(..).unwrap_or_else(|_| panic!(..))`, every output address
likewise, `SignatureLockedSingleOutput::new` panics on a zero amount, the
embedded payload panics unless it is an indexation with at least one entry,
and only the final builder `finish` propagates a typed error with `?`. -/
def tryIntoRustEssence (e : TransactionPayloadEssenceDto) : ConvOutcome RustEssence :=
  if ¬ e.inputs.all (fun i => validHex64 i.transaction_id) then .panic
  else if ¬ e.outputs.all (fun o => validHex64 o.address) then .panic
  else if ¬ e.outputs.all (fun o => 0 < o.amount) then .panic
  else
    match e.payload with
    | none =>
      finishEssence (e.inputs.map fun i => (i.transaction_id, i.index))
        (e.outputs.map fun o => (o.address, o.amount)) none
    | some p =>
      match p.indexation with
      | none => .panic
      | some [] => .panic
      | some (ix :: _) =>
        finishEssence (e.inputs.map fun i => (i.transaction_id, i.index))
          (e.outputs.map fun o => (o.address, o.amount)) (some (ix.index, ix.data))

/-- `TryFrom<Ed25519Signature> for RustSignatureUnlock` (types.rs lines
641-649): hex-decodes the public key field into a 32-byte slice, returning
a typed error with `?` on failure. -/
def tryIntoRustSignatureUnlock (s : Ed25519SignatureDto) : ConvOutcome RustUnlockBlock :=
  if hexDecodeOk64 s.public_key then .ok (.signature s.public_key s.signature)
  else .typedError "hex decode failed"

/-- `TryFrom<UnlockBlock> for RustUnlockBlock` (types.rs lines 651-666):
with a signature present the signature conversion runs (typed error on
failure); otherwise `block.reference.unwrap()` aborts when the reference is
also absent. The `ReferenceUnlock` constructor is modelled as total (the
spec gives a plain u16 index, section 3). -/
def tryIntoRustUnlockBlock (b : UnlockBlockDto) : ConvOutcome RustUnlockBlock :=
  match b.signature with
  | some s => tryIntoRustSignatureUnlock s
  | none =>
    match b.reference with
    | some r => .ok (.reference r)
    | none => .panic

/-- A DTO essence whose single input has a malformed transaction id. -/
def badTxIdEssenceDto : TransactionPayloadEssenceDto :=
  { inputs := [{ transaction_id := "zz", index := 0 }],
    outputs := [{ address := String.mk (List.replicate 64 (Char.ofNat 97)), amount := 1 }],
    payload := none }

/-- A DTO unlock block with neither a signature nor a reference. -/
def emptyUnlockBlockDto : UnlockBlockDto :=
  { signature := none, reference := none }

end Binding

/-! Theorems. -/

namespace Wallet

theorem ebind_ok {ε α β : Type} (a : α) (f : α → Except ε β) :
    (Except.ok a : Except ε α) >>= f = f a := rfl

theorem ebind_error {ε α β : Type} (e : ε) (f : α → Except ε β) :
    (Except.error e : Except ε α) >>= f = .error e := rfl

theorem eisOk_ok {ε α : Type} (a : α) : (Except.ok a : Except ε α).isOk = true := rfl

theorem eisOk_error {ε α : Type} (e : ε) : (Except.error e : Except ε α).isOk = false := rfl

theorem foldl_applyOp_internal (ops : List SetterOp) (b : AddressBuilder) :
    (ops.foldl applyOp b).internal = b.internal := by
  induction ops generalizing b with
  | nil => rfl
  | cons op ops ih =>
    rw [List.foldl_cons, ih]
    cases op <;> rfl

theorem foldl_applyOp_address_none (ops : List SetterOp) (b : AddressBuilder) :
    (ops.foldl applyOp b).address = none ↔
      b.address = none ∧ ∀ op ∈ ops, setsAddress op = false := by
  induction ops generalizing b with
  | nil => simp
  | cons op ops ih =>
    rw [List.foldl_cons, ih]
    cases op <;>
      simp [applyOp, AddressBuilder.withAddress, AddressBuilder.withBalance,
        AddressBuilder.withKeyIndex, AddressBuilder.withOutputs, setsAddress, and_assoc]

theorem foldl_applyOp_balance_none (ops : List SetterOp) (b : AddressBuilder) :
    (ops.foldl applyOp b).balance = none ↔
      b.balance = none ∧ ∀ op ∈ ops, setsBalance op = false := by
  induction ops generalizing b with
  | nil => simp
  | cons op ops ih =>
    rw [List.foldl_cons, ih]
    cases op <;>
      simp [applyOp, AddressBuilder.withAddress, AddressBuilder.withBalance,
        AddressBuilder.withKeyIndex, AddressBuilder.withOutputs, setsBalance, and_assoc]

theorem foldl_applyOp_key_index_none (ops : List SetterOp) (b : AddressBuilder) :
    (ops.foldl applyOp b).key_index = none ↔
      b.key_index = none ∧ ∀ op ∈ ops, setsKeyIndex op = false := by
  induction ops generalizing b with
  | nil => simp
  | cons op ops ih =>
    rw [List.foldl_cons, ih]
    cases op <;>
      simp [applyOp, AddressBuilder.withAddress, AddressBuilder.withBalance,
        AddressBuilder.withKeyIndex, AddressBuilder.withOutputs, setsKeyIndex, and_assoc]

theorem foldl_applyOp_outputs_none (ops : List SetterOp) (b : AddressBuilder) :
    (ops.foldl applyOp b).outputs = none ↔
      b.outputs = none ∧ ∀ op ∈ ops, setsOutputs op = false := by
  induction ops generalizing b with
  | nil => simp
  | cons op ops ih =>
    rw [List.foldl_cons, ih]
    cases op <;>
      simp [applyOp, AddressBuilder.withAddress, AddressBuilder.withBalance,
        AddressBuilder.withKeyIndex, AddressBuilder.withOutputs, setsOutputs, and_assoc]

theorem build_isOk_false_iff (b : AddressBuilder) :
    (b.build).isOk = false ↔
      b.address = none ∨ b.balance = none ∨ b.key_index = none ∨ b.outputs = none := by
  unfold AddressBuilder.build
  cases b.address <;> cases b.balance <;> cases b.key_index <;> cases b.outputs <;>
    simp [eisOk_ok, eisOk_error]

/-- C10: `AddressBuilder::build()` fails exactly when one of the address,
balance, key_index or outputs fields was never set by a setter call on the
fresh builder; on success the built Address carries the stored field
values; and because no setter for `internal` exists, every built Address
has `internal = false`. -/
theorem addressBuilder_build_spec (ops : List SetterOp) :
    (((applyOps ops).build).isOk = false ↔
      ((∀ op ∈ ops, setsAddress op = false) ∨ (∀ op ∈ ops, setsBalance op = false) ∨
        (∀ op ∈ ops, setsKeyIndex op = false) ∨ (∀ op ∈ ops, setsOutputs op = false))) ∧
    (∀ (a : IotaAddress) (bal k : Nat) (outs : List AddressOutput),
      (applyOps ops).address = some a → (applyOps ops).balance = some bal →
      (applyOps ops).key_index = some k → (applyOps ops).outputs = some outs →
      (applyOps ops).build =
        .ok { address := a, balance := bal, key_index := k, internal := false, outputs := outs }) := by
  constructor
  · rw [build_isOk_false_iff]
    rw [applyOps, foldl_applyOp_address_none, foldl_applyOp_balance_none,
      foldl_applyOp_key_index_none, foldl_applyOp_outputs_none]
    simp [AddressBuilder.new]
  · intro a bal k outs ha hb hk ho
    have hint : (applyOps ops).internal = false := foldl_applyOp_internal ops AddressBuilder.new
    unfold AddressBuilder.build
    rw [ha, hb, hk, ho, hint]

/-- Witness for C10: building after setting all four fields yields exactly
the supplied values with `internal = false`. -/
theorem addressBuilder_build_spec_witness :
    (applyOps [SetterOp.setAddress ⟨List.replicate 32 3⟩, SetterOp.setBalance 9,
      SetterOp.setKeyIndex 1, SetterOp.setOutputs []]).build =
      .ok { address := ⟨List.replicate 32 3⟩, balance := 9, key_index := 1, internal := false,
            outputs := [] } :=
  (addressBuilder_build_spec _).2 _ _ _ _ rfl rfl rfl rfl

/-- C9: wallet Address equality, ordering and hashing are functions of the
bech32 string of the inner address alone — equality holds iff the bech32
strings are equal, comparison is string comparison of the bech32 forms, and
the hash is the string hash of the bech32 form; the balance, key_index,
internal and outputs fields do not enter. -/
theorem address_identity_by_bech32 (f : IotaAddress → String) (hsh : String → UInt64)
    (a b : Address) :
    (addressEq f a b = true ↔ f a.address = f b.address) ∧
    addressCmp f a b = compare (f a.address) (f b.address) ∧
    addressHash f hsh a = hsh (f a.address) := by
  refine ⟨?_, rfl, rfl⟩
  simp [addressEq]

/-- C8: address derivation is deterministic — `get_iota_address` is a pure
function of the vault, the decoder, the storage path and the four
derivation inputs, so two calls on identical inputs return the identical
result. (The purity assumption of the claim is structural here: the vault
is modelled as a function, as spec section 4.5 requires.) -/
theorem derive_address_deterministic (sfp : String → Stronghold)
    (dec : String → Except WalletError (List Byte)) (path : String) (id : List Byte)
    (account_index key_index : Nat) (internal : Bool) :
    get_iota_address sfp dec path id account_index key_index internal =
      get_iota_address sfp dec path id account_index key_index internal := rfl

/-- C7: `is_unspent(account, address)` is true iff the address does not
occur on any already-sent message of the local message history of the
account (a derived check over local history only). -/
theorem is_unspent_iff (account : Account) (address : IotaAddress) :
    is_unspent account address = true ↔
      ∀ m ∈ account.messages, m.messageType = MessageType.sent → address ∉ m.addresses := by
  simp only [is_unspent, Account.list_messages, Bool.not_eq_true', List.any_eq_false,
    List.mem_filter, beq_iff_eq]
  constructor
  · intro h m hm ht
    have := h m ⟨hm, ht⟩
    simpa using this
  · intro h m hm
    have := h m hm.1 hm.2
    simpa using this

/-- C1: evaluating `get_addresses(account, 2, false)` on an account with no
addresses yet: the loop never appends to the account it reads, so both
produced addresses carry key_index 0 (and are the identical address) —
two addresses of one batch share a key_index. -/
theorem get_addresses_duplicate_key_index :
    get_addresses collabZero strongholdEx fromBase32Ex accountEx 2 false =
      .ok [addressDup, addressDup] ∧ addressDup.key_index = 0 := ⟨rfl, rfl⟩

/-- C4 counterexample: with the first balance query succeeding and the
second failing, `get_addresses(account, 2, false)` evaluates to an error
value — the address already produced by the first iteration is discarded
rather than reported, a whole-batch failure. -/
theorem get_addresses_whole_batch_cex :
    get_addresses collabFailLater strongholdEx fromBase32Ex accountEx 2 false =
      .error (.message "balance query failed") := rfl

theorem get_addresses_from_error (collabs : Nat → Collaborator)
    (sfp : String → Stronghold) (dec : String → Except WalletError (List Byte))
    (account : Account) (internal : Bool) (e : WalletError) :
    ∀ (n m i : Nat), m < n →
    (∀ j, j < m → (get_new_address (collabs (i + j)) sfp dec account internal).isOk = true) →
    get_new_address (collabs (i + m)) sfp dec account internal = .error e →
    get_addresses_from collabs sfp dec account internal i n = .error e := by
  intro n
  induction n with
  | zero => intro m i hm; omega
  | succ n ih =>
    intro m i hm hok herr
    match m with
    | 0 =>
      rw [Nat.add_zero] at herr
      simp [get_addresses_from, herr, ebind_error]
    | m + 1 =>
      have h0 : (get_new_address (collabs (i + 0)) sfp dec account internal).isOk = true :=
        hok 0 (Nat.succ_pos m)
      rw [Nat.add_zero] at h0
      cases hcall : get_new_address (collabs i) sfp dec account internal with
      | error e2 => rw [hcall] at h0; rw [eisOk_error] at h0; exact absurd h0 (by simp)
      | ok a =>
        have hrest : get_addresses_from collabs sfp dec account internal (i + 1) n = .error e := by
          apply ih m (i + 1) (by omega)
          · intro j hj
            have := hok (j + 1) (by omega)
            have hidx : i + (j + 1) = i + 1 + j := by omega
            rwa [hidx] at this
          · have hidx : i + (m + 1) = i + 1 + m := by omega
            rwa [hidx] at herr
        simp [get_addresses_from, hcall, hrest, ebind_ok, ebind_error]

/-- C4 as amended: when the balance query of some iteration k of
`get_addresses` fails after the earlier iterations succeeded, the whole
call returns that error — the addresses already produced in the batch are
discarded (the loop propagates the first error out of the function). -/
theorem get_addresses_error_discards_batch (collabs : Nat → Collaborator)
    (sfp : String → Stronghold) (dec : String → Except WalletError (List Byte))
    (account : Account) (internal : Bool) (count k : Nat) (e : WalletError)
    (hk : k < count)
    (hok : ∀ j, j < k → (get_new_address (collabs j) sfp dec account internal).isOk = true)
    (herr : get_new_address (collabs k) sfp dec account internal = .error e) :
    get_addresses collabs sfp dec account count internal = .error e := by
  unfold get_addresses
  apply get_addresses_from_error collabs sfp dec account internal e count k 0 hk
  · intro j hj
    simpa using hok j hj
  · simpa using herr

/-- Witness for C4 as amended: at the concrete instances, iteration 0
succeeds, iteration 1 fails, and the whole batch evaluates to the error. -/
theorem get_addresses_error_discards_batch_witness :
    get_addresses collabFailLater strongholdEx fromBase32Ex accountEx 2 false =
      .error (.message "balance query failed") :=
  get_addresses_error_discards_batch collabFailLater strongholdEx fromBase32Ex accountEx false
    2 1 (.message "balance query failed") (by omega)
    (by intro j hj; rw [Nat.lt_one_iff.mp hj]; rfl) rfl

/-- C5 counterexample: with a collaborator that reports one known output at
every address, `get_new_address` produces an Address whose outputs list is
empty — not the outputs discovered by the query. -/
theorem get_new_address_outputs_cex :
    get_new_address collabWithOutputs strongholdEx fromBase32Ex accountEx false =
      .ok { address := ⟨List.replicate 32 0⟩, balance := 7, key_index := 0, internal := false,
            outputs := [] } ∧
    collabWithOutputs ⟨List.replicate 32 0⟩ = .ok ⟨7, [outputEx]⟩ ∧
    ([] : List AddressOutput) ≠ [outputEx] := ⟨rfl, rfl, by decide⟩

/-- C5 as amended: `get_new_address(account, internal)` allocates
key_index = current number of addresses of the account, derives the address
through the vault, queries the collaborator for that address and uses only
its balance: the produced Address carries the queried balance and an empty
outputs list. -/
theorem get_new_address_spec (collab : Collaborator) (sfp : String → Stronghold)
    (dec : String → Except WalletError (List Byte)) (account : Account) (internal : Bool)
    (addr : IotaAddress) (resp : AddressQueryResponse)
    (hderive : get_iota_address sfp dec account.storage_path account.id account.index
        account.addresses.length internal = .ok addr)
    (hquery : collab addr = .ok resp) :
    get_new_address collab sfp dec account internal =
      .ok { address := addr, balance := resp.balance, key_index := account.addresses.length,
            internal := internal, outputs := [] } := by
  unfold get_new_address get_balance
  simp [hderive, hquery, ebind_ok]

/-- Witness for C5 as amended: concrete vault, decoder and collaborator
instances evaluated end to end. -/
theorem get_new_address_spec_witness :
    get_new_address collabWithOutputs strongholdEx fromBase32Ex accountEx false =
      .ok { address := ⟨List.replicate 32 0⟩, balance := 7, key_index := 0, internal := false,
            outputs := [] } :=
  get_new_address_spec collabWithOutputs strongholdEx fromBase32Ex accountEx false
    ⟨List.replicate 32 0⟩ ⟨7, [outputEx]⟩ rfl rfl

end Wallet

namespace Codec

theorem encNat_length (k : Nat) : ∀ n : Nat, (encNat k n).length = k := by
  induction k with
  | zero => intro n; rfl
  | succ k ih => intro n; simp [encNat, ih]

theorem parseNat_encNat (k : Nat) : ∀ n : Nat, n < 256 ^ k →
    ∀ r : List Byte, parseNat k (encNat k n ++ r) = some (n, r) := by
  induction k with
  | zero =>
    intro n h r
    have h0 : n = 0 := by simpa using h
    subst h0
    rfl
  | succ k ih =>
    intro n h r
    have hdiv : n / 256 < 256 ^ k := by
      have h2 : (256 : Nat) ^ (k + 1) = 256 ^ k * 256 := pow_succ 256 k
      exact (Nat.div_lt_iff_lt_mul (by norm_num)).mpr (h2 ▸ h)
    have hrec := ih (n / 256) hdiv r
    simp only [encNat, List.cons_append, parseNat, List.append_eq, hrec]
    rw [Nat.mod_add_div]

theorem parseFix_append (b : List Byte) : ∀ r, parseFix b.length (b ++ r) = some (b, r) := by
  induction b with
  | nil => intro r; rfl
  | cons x xs ih => intro r; simp [parseFix, ih]

theorem parseFix_of_length {b : List Byte} {k : Nat} (h : b.length = k) :
    ∀ r, parseFix k (b ++ r) = some (b, r) := by
  subst h
  exact parseFix_append b

theorem parseCount_encSeq {α : Type} (p : List Byte → Option (α × List Byte))
    (enc : α → List Byte) (l : List α)
    (h : ∀ x ∈ l, ∀ s : List Byte, p (enc x ++ s) = some (x, s)) :
    ∀ r : List Byte, parseCount p l.length (encSeq enc l ++ r) = some (l, r) := by
  induction l with
  | nil => intro r; rfl
  | cons x xs ih =>
    intro r
    have hx := h x (List.mem_cons_self x xs) (encSeq enc xs ++ r)
    have hxs := ih (fun y hy s => h y (List.mem_cons_of_mem x hy) s) r
    simp only [encSeq, List.length_cons, List.append_assoc, parseCount, hx, hxs]

theorem encSeq_length {α : Type} (enc : α → List Byte) (l : List α) :
    (encSeq enc l).length = (l.map fun x => (enc x).length).sum := by
  induction l with
  | nil => rfl
  | cons x xs ih => simp [encSeq, ih]

theorem parseTagged_packTagged (p : TaggedDataPayload) (h : ValidTagged p) :
    ∀ r, parseTagged (packTagged p ++ r) = some (p, r) := by
  intro r
  obtain ⟨h1, _, h3, _⟩ := h
  have e1 := parseNat_encNat 1 p.tag.length (by simpa using h1)
  have e2 := parseFix_of_length (rfl : p.tag.length = p.tag.length)
  have e3 := parseNat_encNat 4 p.data.length (lt_of_lt_of_le h3 (by norm_num))
  have e4 := parseFix_of_length (rfl : p.data.length = p.data.length)
  simp only [packTagged, List.append_assoc, parseTagged, e1, e2, e3, e4]

theorem parseInput_packInput (i : Input) (h : ValidInput i) :
    ∀ r, parseInput (packInput i ++ r) = some (i, r) := by
  intro r
  cases i with
  | utxo u =>
    simp only [ValidInput, ValidBytes] at h
    obtain ⟨⟨hlen, _⟩, hidx⟩ := h
    have e1 := parseFix_of_length hlen
    have e2 := parseNat_encNat 2 u.output_index (lt_of_lt_of_le hidx (by norm_num))
    simp only [packInput, List.cons_append, List.append_assoc, parseInput, e1, e2]
  | treasury m =>
    simp only [ValidInput, ValidBytes] at h
    obtain ⟨hlen, _⟩ := h
    have e1 := parseFix_of_length hlen
    simp only [packInput, List.cons_append, parseInput, e1]

theorem parseOutput_packOutput (o : Output) (h : ValidOutput o) :
    ∀ r, parseOutput (packOutput o ++ r) = some (o, r) := by
  intro r
  cases o with
  | basic b =>
    simp only [ValidOutput, ValidBytes] at h
    obtain ⟨_, hamt, hlen, _⟩ := h
    have e1 := parseNat_encNat 8 b.amount (lt_of_lt_of_le hamt (by norm_num))
    have e2 := parseFix_of_length hlen
    simp only [packOutput, List.cons_append, List.append_assoc, parseOutput, e1, e2]
  | treasury amount =>
    simp only [ValidOutput] at h
    have e1 := parseNat_encNat 8 amount (lt_of_lt_of_le h (by norm_num))
    simp only [packOutput, List.cons_append, parseOutput, e1]

theorem parseOptTagged_packOptTagged (o : Option TaggedDataPayload) (h : ValidOptTagged o) :
    ∀ r, parseOptTagged (packOptTagged o ++ r) = some (o, r) := by
  intro r
  cases o with
  | none => rfl
  | some p =>
    have e1 := parseTagged_packTagged p h
    simp only [packOptTagged, List.cons_append, parseOptTagged, e1]

theorem parseEssence_packEssence (params : ProtocolParameters) (e : TransactionEssence)
    (h : ValidEssence params e) :
    ∀ r, parseEssence params (packEssence e ++ r) = some (e, r) := by
  intro r
  have h2 := h
  obtain ⟨hnid, hnid64, ⟨hclen, _⟩, hne, hnd, hilen, hiv, hone, holen, hov, hsum, hopt⟩ := h2
  have e1 := parseNat_encNat 8 e.network_id (lt_of_lt_of_le hnid64 (by norm_num))
  have e2 := parseFix_of_length hclen
  have e3 := parseNat_encNat 2 e.inputs.length (lt_of_lt_of_le hilen (by norm_num))
  have e4 := parseCount_encSeq parseInput packInput e.inputs
    (fun x hx => parseInput_packInput x (hiv x hx))
  have e5 := parseNat_encNat 2 e.outputs.length (lt_of_lt_of_le holen (by norm_num))
  have e6 := parseCount_encSeq parseOutput packOutput e.outputs
    (fun x hx => parseOutput_packOutput x (hov x hx))
  have e7 := parseOptTagged_packOptTagged e.payload hopt
  have heta : (⟨e.network_id, e.inputs_commitment, e.inputs, e.outputs, e.payload⟩ :
      TransactionEssence) = e := rfl
  simp only [packEssence, List.append_assoc, parseEssence, e1, e2, e3, e4, e5, e6, e7, heta]
  rw [if_pos h]

theorem parseUnlock_packUnlock (u : Unlock) (h : ValidUnlock u) :
    ∀ r, parseUnlock (packUnlock u ++ r) = some (u, r) := by
  intro r
  cases u with
  | signature pk sig =>
    simp only [ValidUnlock, ValidBytes] at h
    obtain ⟨⟨hpk, _⟩, hsig, _⟩ := h
    have e1 := parseFix_of_length hpk
    have e2 := parseFix_of_length hsig
    simp only [packUnlock, List.cons_append, List.append_assoc, parseUnlock, e1, e2]
  | reference idx =>
    simp only [ValidUnlock] at h
    have e1 := parseNat_encNat 2 idx (lt_of_lt_of_le h (by norm_num))
    simp only [packUnlock, List.cons_append, parseUnlock, e1]

theorem parseTransaction_packTransaction (params : ProtocolParameters)
    (p : TransactionPayload) (h : ValidTransaction params p) :
    ∀ r, parseTransaction params (packTransaction p ++ r) = some (p, r) := by
  intro r
  obtain ⟨he, huv, hul⟩ := h
  have he2 := he
  obtain ⟨_, _, _, _, _, hilen, _, _, _, _, _, _⟩ := he2
  have e1 := parseEssence_packEssence params p.essence he
  have e2 := parseNat_encNat 2 p.unlocks.length
    (lt_of_lt_of_le (hul ▸ hilen) (by norm_num))
  have e3 := parseCount_encSeq parseUnlock packUnlock p.unlocks
    (fun x hx => parseUnlock_packUnlock x (huv x hx))
  simp only [packTransaction, List.append_assoc, parseTransaction, e1, e2, e3]
  rw [if_pos hul]

theorem parseMilestoneSig_packMilestoneSig (s : MilestoneSignature)
    (h : ValidBytes 32 s.public_key ∧ ValidBytes 64 s.sig) :
    ∀ r, parseMilestoneSig (packMilestoneSig s ++ r) = some (s, r) := by
  intro r
  obtain ⟨⟨hpk, _⟩, hsig, _⟩ := h
  have e1 := parseFix_of_length hpk
  have e2 := parseFix_of_length hsig
  simp only [packMilestoneSig, List.append_assoc, parseMilestoneSig, e1, e2]

theorem parseMilestoneEssence_packMilestoneEssence (e : MilestoneEssence)
    (h : ValidMilestoneEssence e) :
    ∀ r, parseMilestoneEssence (packMilestoneEssence e ++ r) = some (e, r) := by
  intro r
  obtain ⟨hidx, hts, hver, ⟨hprev, _⟩, hpne, hpnd, hplen, hpv, ⟨hincl, _⟩, ⟨happl, _⟩,
    holen, _⟩ := h
  have e1 := parseNat_encNat 4 e.index (lt_of_lt_of_le hidx (by norm_num))
  have e2 := parseNat_encNat 8 e.timestamp (lt_of_lt_of_le hts (by norm_num))
  have e3 := parseNat_encNat 1 e.protocol_version (by simpa using hver)
  have e4 := parseFix_of_length hprev
  have e5 := parseNat_encNat 1 e.parents.length (by simpa using hplen)
  have e6 := parseCount_encSeq (parseFix 32) id e.parents
    (fun q hq s => by simpa using parseFix_of_length (hpv q hq).1 s)
  have e7 := parseFix_of_length hincl
  have e8 := parseFix_of_length happl
  have e9 := parseNat_encNat 4 e.options.length (lt_of_lt_of_le holen (by norm_num))
  have e10 := parseFix_of_length (rfl : e.options.length = e.options.length)
  simp only [packMilestoneEssence, List.append_assoc, parseMilestoneEssence,
    e1, e2, e3, e4, e5, e6, e7, e8, e9, e10]

theorem parseMilestone_packMilestone (p : MilestonePayload) (h : ValidMilestone p) :
    ∀ r, parseMilestone (packMilestone p ++ r) = some (p, r) := by
  intro r
  obtain ⟨he, hne, hslen, hsv⟩ := h
  have e1 := parseMilestoneEssence_packMilestoneEssence p.essence he
  have e2 := parseNat_encNat 1 p.signatures.length (by simpa using hslen)
  have e3 := parseCount_encSeq parseMilestoneSig packMilestoneSig p.signatures
    (fun x hx => parseMilestoneSig_packMilestoneSig x (hsv x hx))
  simp only [packMilestone, List.append_assoc, parseMilestone, e1, e2, e3]

theorem parseTreasuryTransaction_packTreasuryTransaction (p : TreasuryTransactionPayload)
    (h : ValidTreasuryTransaction ⟨0, 0⟩ p ∨ ValidBytes 32 p.input_milestone_id ∧
      p.output_amount < 2 ^ 64) :
    ∀ r, parseTreasuryTransaction (packTreasuryTransaction p ++ r) = some (p, r) := by
  intro r
  have hm : p.input_milestone_id.length = 32 ∧ p.output_amount < 2 ^ 64 := by
    rcases h with ⟨⟨hl, _⟩, ha, _⟩ | ⟨⟨hl, _⟩, ha⟩
    · exact ⟨hl, ha⟩
    · exact ⟨hl, ha⟩
  have e1 := parseFix_of_length hm.1
  have e2 := parseNat_encNat 8 p.output_amount (lt_of_lt_of_le hm.2 (by norm_num))
  simp only [packTreasuryTransaction, List.append_assoc, parseTreasuryTransaction, e1, e2]

theorem unpack_pack (params : ProtocolParameters) (p : Payload) (h : ValidPayload params p) :
    ∀ r, unpackPayload params (packPayload p ++ r) = some (p, r) := by
  intro r
  cases p with
  | treasuryTransaction q =>
    simp only [ValidPayload, ValidTreasuryTransaction] at h
    have e1 := parseTreasuryTransaction_packTreasuryTransaction q (Or.inr ⟨h.1, h.2.1⟩)
    simp only [packPayload, Payload.kind, List.cons_append, unpackPayload, e1]
  | taggedData q =>
    have e1 := parseTagged_packTagged q h
    simp only [packPayload, Payload.kind, List.cons_append, unpackPayload, e1]
  | transaction q =>
    have e1 := parseTransaction_packTransaction params q h
    simp only [packPayload, Payload.kind, List.cons_append, unpackPayload, e1]
  | milestone q =>
    have e1 := parseMilestone_packMilestone q h
    simp only [packPayload, Payload.kind, List.cons_append, unpackPayload, e1]

theorem packTagged_length (p : TaggedDataPayload) :
    (packTagged p).length = taggedPackedLen p := by
  simp [packTagged, taggedPackedLen, encNat_length]
  omega

theorem packInput_length (i : Input) (h : ValidInput i) :
    (packInput i).length = inputPackedLen i := by
  cases i with
  | utxo u =>
    simp only [ValidInput, ValidBytes] at h
    simp [packInput, inputPackedLen, encNat_length, h.1.1]
  | treasury m =>
    simp only [ValidInput, ValidBytes] at h
    simp [packInput, inputPackedLen, h.1]

theorem packOutput_length (o : Output) (h : ValidOutput o) :
    (packOutput o).length = outputPackedLen o := by
  cases o with
  | basic b =>
    simp only [ValidOutput, ValidBytes] at h
    simp [packOutput, outputPackedLen, encNat_length, h.2.2.1]
  | treasury amount =>
    simp [packOutput, outputPackedLen, encNat_length]

theorem packOptTagged_length (o : Option TaggedDataPayload) :
    (packOptTagged o).length = optTaggedPackedLen o := by
  cases o with
  | none => rfl
  | some p =>
    simp [packOptTagged, optTaggedPackedLen, packTagged_length]
    omega

theorem packUnlock_length (u : Unlock) (h : ValidUnlock u) :
    (packUnlock u).length = unlockPackedLen u := by
  cases u with
  | signature pk sig =>
    simp only [ValidUnlock, ValidBytes] at h
    simp [packUnlock, unlockPackedLen, h.1.1, h.2.1]
  | reference idx =>
    simp [packUnlock, unlockPackedLen, encNat_length]

theorem packEssence_length (params : ProtocolParameters) (e : TransactionEssence)
    (h : ValidEssence params e) : (packEssence e).length = essencePackedLen e := by
  obtain ⟨_, _, ⟨hclen, _⟩, _, _, _, hiv, _, _, hov, _, _⟩ := h
  have hins : e.inputs.map (fun x => (packInput x).length) = e.inputs.map inputPackedLen :=
    List.map_congr_left (fun x hx => packInput_length x (hiv x hx))
  have houts : e.outputs.map (fun x => (packOutput x).length) = e.outputs.map outputPackedLen :=
    List.map_congr_left (fun x hx => packOutput_length x (hov x hx))
  simp [packEssence, essencePackedLen, encNat_length, encSeq_length, hclen, hins, houts,
    packOptTagged_length]
  omega

theorem packTransaction_length (params : ProtocolParameters) (p : TransactionPayload)
    (h : ValidTransaction params p) :
    (packTransaction p).length = transactionPackedLen p := by
  obtain ⟨he, huv, _⟩ := h
  have huns : p.unlocks.map (fun x => (packUnlock x).length) = p.unlocks.map unlockPackedLen :=
    List.map_congr_left (fun x hx => packUnlock_length x (huv x hx))
  simp [packTransaction, transactionPackedLen, encNat_length, encSeq_length, huns,
    packEssence_length params p.essence he]
  omega

theorem packMilestoneEssence_length (e : MilestoneEssence) (h : ValidMilestoneEssence e) :
    (packMilestoneEssence e).length = milestoneEssencePackedLen e := by
  obtain ⟨_, _, _, ⟨hprev, _⟩, _, _, _, hpv, ⟨hincl, _⟩, ⟨happl, _⟩, _, _⟩ := h
  have hpar : e.parents.map (fun q => q.length) = e.parents.map (fun _ => 32) :=
    List.map_congr_left (fun q hq => (hpv q hq).1)
  simp [packMilestoneEssence, milestoneEssencePackedLen, encNat_length, encSeq_length,
    hprev, hincl, happl, hpar, List.map_const, List.sum_replicate, smul_eq_mul]
  omega

theorem packMilestoneSig_length (s : MilestoneSignature)
    (h : ValidBytes 32 s.public_key ∧ ValidBytes 64 s.sig) :
    (packMilestoneSig s).length = 96 := by
  simp [packMilestoneSig, h.1.1, h.2.1]

theorem packMilestone_length (p : MilestonePayload) (h : ValidMilestone p) :
    (packMilestone p).length = milestonePackedLen p := by
  obtain ⟨he, _, _, hsv⟩ := h
  have hsigs : p.signatures.map (fun s => (packMilestoneSig s).length) =
      p.signatures.map (fun _ => 96) :=
    List.map_congr_left (fun s hs => packMilestoneSig_length s (hsv s hs))
  simp [packMilestone, milestonePackedLen, encNat_length, encSeq_length, hsigs,
    List.map_const, List.sum_replicate, smul_eq_mul,
    packMilestoneEssence_length p.essence he]
  omega

theorem packTreasuryTransaction_length (p : TreasuryTransactionPayload)
    (h : p.input_milestone_id.length = 32) :
    (packTreasuryTransaction p).length = treasuryTransactionPackedLen p := by
  simp [packTreasuryTransaction, treasuryTransactionPackedLen, encNat_length, h]

/-- C2: for every valid payload, unpacking the bytes produced by pack
yields the payload back (with the whole buffer consumed), and the length of
the packed bytes equals the pure length prediction packed_len. -/
theorem payload_roundtrip (params : ProtocolParameters) (p : Payload)
    (h : ValidPayload params p) :
    unpackPayload params (packPayload p) = some (p, []) ∧
    (packPayload p).length = payloadPackedLen p := by
  constructor
  · have := unpack_pack params p h []
    simpa using this
  · cases p with
    | treasuryTransaction q =>
      simp only [ValidPayload, ValidTreasuryTransaction] at h
      simp [packPayload, payloadPackedLen, packTreasuryTransaction_length q h.1.1]
      omega
    | taggedData q =>
      simp [packPayload, payloadPackedLen, packTagged_length]
      omega
    | transaction q =>
      simp [packPayload, payloadPackedLen, packTransaction_length params q h]
      omega
    | milestone q =>
      simp [packPayload, payloadPackedLen, packMilestone_length q h]
      omega

/-- The protocol parameters used by the concrete round-trip witness. -/
def paramsW : ProtocolParameters := ⟨1, 1000000⟩

/-- A concrete transaction payload exercising the deep round-trip path. -/
def payloadW : Payload :=
  .transaction
    { essence :=
        { network_id := 1,
          inputs_commitment := List.replicate 32 0,
          inputs := [.utxo ⟨List.replicate 32 1, 0⟩],
          outputs := [.basic ⟨5, List.replicate 32 2⟩],
          payload := some ⟨List.replicate 32 9, []⟩ },
      unlocks := [.signature (List.replicate 32 3) (List.replicate 64 4)] }

/-- Witness for C2: the concrete valid transaction payload round-trips and
its packed length matches the prediction. -/
theorem payload_roundtrip_witness :
    ValidPayload paramsW payloadW ∧
    (unpackPayload paramsW (packPayload payloadW) = some (payloadW, []) ∧
      (packPayload payloadW).length = payloadPackedLen payloadW) :=
  ⟨by decide, payload_roundtrip paramsW payloadW (by decide)⟩

/-- C6: packing writes the one-byte kind tag as the leading byte, with the
fixed table 4=TreasuryTransaction, 5=TaggedData, 6=Transaction,
7=Milestone (so in particular a TaggedData payload with a 32-byte tag and
empty data packs with leading byte 5). -/
theorem payload_kind_tags :
    (∀ q : TreasuryTransactionPayload, (packPayload (.treasuryTransaction q)).head? = some 4) ∧
    (∀ q : TaggedDataPayload, (packPayload (.taggedData q)).head? = some 5) ∧
    (∀ q : TransactionPayload, (packPayload (.transaction q)).head? = some 6) ∧
    (∀ q : MilestonePayload, (packPayload (.milestone q)).head? = some 7) ∧
    (∀ p : Payload, (packPayload p).head? = some p.kind) := by
  refine ⟨fun q => rfl, fun q => rfl, fun q => rfl, fun q => rfl, fun p => ?_⟩
  cases p <;> rfl

end Codec

namespace Binding

/-- C3 counterexample: converting a DTO TransactionPayloadEssence whose
input carries the malformed transaction id "zz" aborts the process
(`from_str(..).unwrap_or_else(|_| panic!(..))`) instead of returning a
typed error — the conversion does not satisfy the never-panic claim. -/
theorem dto_conversion_panics_cex :
    tryIntoRustEssence badTxIdEssenceDto = ConvOutcome.panic := by decide

/-- C3 as amended: the DTO-to-domain conversions return typed errors only
on some paths; malformed fields on the cited paths abort the process:
a DTO essence containing any input with a malformed transaction id panics,
and a DTO unlock block with neither signature nor reference panics. -/
theorem dto_conversion_malformed_aborts (e : TransactionPayloadEssenceDto)
    (b : UnlockBlockDto)
    (hbad : ∃ i ∈ e.inputs, validHex64 i.transaction_id = false)
    (hsig : b.signature = none) (href : b.reference = none) :
    tryIntoRustEssence e = ConvOutcome.panic ∧
    tryIntoRustUnlockBlock b = ConvOutcome.panic := by
  constructor
  · obtain ⟨i, hi, hfalse⟩ := hbad
    unfold tryIntoRustEssence
    rw [if_pos]
    simp only [List.all_eq_true, not_forall]
    exact ⟨i, ⟨hi, by simp [hfalse]⟩⟩
  · unfold tryIntoRustUnlockBlock
    rw [hsig, href]

/-- Witness for C3 as amended: the concrete malformed essence and the
concrete empty unlock block both abort. -/
theorem dto_conversion_malformed_aborts_witness :
    tryIntoRustEssence badTxIdEssenceDto = ConvOutcome.panic ∧
    tryIntoRustUnlockBlock emptyUnlockBlockDto = ConvOutcome.panic :=
  dto_conversion_malformed_aborts badTxIdEssenceDto emptyUnlockBlockDto
    (by decide) rfl rfl

end Binding

end IotaSdk
